import Mathlib

/-!
Verification of the switch-configuration generator.

The development shallowly embeds the program's core logic:
  * `find_site_by_ip`, `generate_hostname` from `services/network_config.py`,
  * `_normalize`, `load_template` from `services/templates.py`,
  * `get_data_vlan` from `net_cfg.py`,
  * the `/generate` handler body (`generate_config`) from `app.py`.

Strings are modelled with Lean `String`; Python dict JSON records become
structures with `Option`-valued fields (a `none` field models an absent or
empty JSON member); dicts used as ordered mappings become association lists
in insertion order.  IPv4 addresses are `Nat` values below 2^32; clearing of
host bits is expressed arithmetically (`a - a % 2^(32-k)`), which agrees with
bitwise AND against a contiguous netmask.
-/

/-! ### Basic string machinery (models of the Python primitives used) -/

/-- Model of Python `str.split(sep)` on character lists: splits at every
occurrence of `sep`, keeping empty pieces, like Python. -/
def splitOnChar (sep : Char) : List Char → List (List Char)
  | [] => [[]]
  | c :: cs =>
    match splitOnChar sep cs with
    | [] => [[]]
    | r :: rs => if c = sep then [] :: r :: rs else (c :: r) :: rs

/-- Python `s.split(sep)` for one-character separators, producing strings. -/
def pySplit (s : String) (sep : Char) : List String :=
  (splitOnChar sep s.data).map String.mk

/-- Python `sep.join(parts)`. -/
def joinWith (sep : String) : List String → String
  | [] => ""
  | [x] => x
  | x :: y :: xs => x ++ sep ++ joinWith sep (y :: xs)

/-- Python `str.lower()` (ASCII case folding, the only case relevant to the
template identifiers the program handles). -/
def pyLower (s : String) : String :=
  String.mk (s.data.map Char.toLower)

/-- The whitespace characters stripped by Python `str.strip()`. -/
def isSpaceChar (c : Char) : Bool :=
  c = ' ' || c = '\t' || c = '\n' || c = '\r' || c = '\x0b' || c = '\x0c'

def trimLeftL (l : List Char) : List Char := l.dropWhile isSpaceChar

def trimRightL (l : List Char) : List Char := (l.reverse.dropWhile isSpaceChar).reverse

/-- Python `str.strip()`. -/
def pyStrip (s : String) : String :=
  String.mk (trimRightL (trimLeftL s.data))

/-- Substring occurrence on character lists (Python's `in` on strings). -/
def containsSubL (pat : List Char) : List Char → Bool
  | [] => pat.isEmpty
  | c :: cs => pat.isPrefixOf (c :: cs) || containsSubL pat cs

/-- Python `pat in s` for strings. -/
def substrB (pat s : String) : Bool :=
  containsSubL pat.data s.data

/-- `p` is a leading piece of `s` (Python `s.startswith(p)`). -/
def startsWithB (p s : String) : Bool :=
  p.data.isPrefixOf s.data

/-- `p` is a trailing piece of `s` (Python `s.endswith(p)`). -/
def endsWithB (p s : String) : Bool :=
  p.data.reverse.isPrefixOf s.data.reverse

/-- Worker for `pyReplace`: leftmost, non-overlapping replacement of the
(nonempty) pattern `pat` by `rep`.  The counter argument skips characters
already consumed by an emitted match, keeping the recursion structural. -/
def replaceAux (pat rep : List Char) : Nat → List Char → List Char
  | _, [] => []
  | k + 1, _ :: cs => replaceAux pat rep k cs
  | 0, c :: cs =>
    if pat.isPrefixOf (c :: cs) then rep ++ replaceAux pat rep (pat.length - 1) cs
    else c :: replaceAux pat rep 0 cs

/-- Python `s.replace(pat, rep)` for the nonempty literal tokens the program
substitutes. -/
def pyReplace (s pat rep : String) : String :=
  String.mk (replaceAux pat.data rep.data 0 s.data)

/-! ### IPv4 parsing (model of the `ipaddress` operations the code calls) -/

/-- Decimal value of a digit list. -/
def natOfDigits (l : List Char) : Nat :=
  l.foldl (fun a c => a * 10 + (c.toNat - 48)) 0

/-- One dotted-quad octet, with `ipaddress`'s rules: ASCII digits only,
no leading zero (except `"0"` itself), value at most 255. -/
def parseOctet (l : List Char) : Option Nat :=
  if l ≠ [] ∧ l.all Char.isDigit ∧ (l.length = 1 ∨ l.head? ≠ some '0') ∧
      natOfDigits l ≤ 255 then
    some (natOfDigits l)
  else none

/-- Model of `ipaddress.ip_address` restricted to IPv4 (the only address
family the directory data and the claims concern): four dot-separated
octets, yielding the 32-bit numeric value. -/
def parseIPv4 (s : String) : Option Nat :=
  match splitOnChar '.' s.data with
  | [a, b, c, d] =>
    match parseOctet a, parseOctet b, parseOctet c, parseOctet d with
    | some x, some y, some z, some w => some (((x * 256 + y) * 256 + z) * 256 + w)
    | _, _, _, _ => none
  | _ => none

/-- Numeric value of the contiguous netmask with `k` leading one bits. -/
def netmaskVal (k : Nat) : Nat := 2 ^ 32 - 2 ^ (32 - k)

/-- Numeric value of the hostmask complementing `netmaskVal k`. -/
def hostmaskVal (k : Nat) : Nat := 2 ^ (32 - k) - 1

/-- Model of `ipaddress`'s mask handling: a pure decimal string is a prefix
length (at most 32); otherwise the string must parse as a dotted quad equal
to a contiguous netmask, or failing that a hostmask, giving the prefix. -/
def parseMask (m : String) : Option Nat :=
  if m.data ≠ [] ∧ m.data.all Char.isDigit then
    if natOfDigits m.data ≤ 32 then some (natOfDigits m.data) else none
  else
    (parseIPv4 m).bind fun mv =>
      (((List.range 33).find? fun k => netmaskVal k == mv).orElse fun _ =>
        (List.range 33).find? fun k => hostmaskVal k == mv)

/-- Model of `ipaddress.ip_network(f"{a}/{m}", strict=False)`: parse the
address and the mask and clear the host bits of the address (`strict=False`),
returning the network base address together with the prefix length. -/
def siteNet (a m : String) : Option (Nat × Nat) :=
  (parseIPv4 a).bind fun av =>
    (parseMask m).map fun k => (av - av % 2 ^ (32 - k), k)

/-- Python `target_ip in network`: base ≤ ip ≤ broadcast. -/
def ipInNet (p : Nat × Nat) (ip : Nat) : Bool :=
  decide (p.1 ≤ ip) && decide (ip < p.1 + 2 ^ (32 - p.2))

/-! ### Data model -/

/-- A `data_vlan`/`voice_vlan` JSON block; a `none` member models an absent
key (`dict.get` returning `None`). -/
structure VlanBlock where
  id : Option String
  name : Option String
deriving DecidableEq

/-- One site entry of `network_config.json`.  A `none` field models an
absent key; `profiles` is the profile-name → (vlan id → vlan name) mapping,
kept as association lists in JSON insertion order (JSON object keys are
strings, so VLAN ids are strings here exactly as in the source data). -/
structure SiteRecord where
  network_address : Option String
  subnet_mask : Option String
  gateway : Option String
  data_vlan : Option VlanBlock
  voice_vlan : Option VlanBlock
  profiles : List (String × List (String × String))
deriving DecidableEq

/-- The loaded directory: site key → record, in insertion order. -/
abbrev SiteDirectory := List (String × SiteRecord)

/-- `if net_addr and net_mask:` — both keys present with non-empty values. -/
def recordTruthy (info : SiteRecord) : Bool :=
  match info.network_address, info.subnet_mask with
  | some a, some m => a ≠ "" && m ≠ ""
  | _, _ => false

/-- The subnet a truthy record declares, when its data parses. -/
def siteNetOf (info : SiteRecord) : Option (Nat × Nat) :=
  match info.network_address, info.subnet_mask with
  | some a, some m => if a ≠ "" ∧ m ≠ "" then siteNet a m else none
  | _, _ => none

/-- The record participates in the scan and its declared subnet contains `ip`. -/
def recordContains (info : SiteRecord) (ip : Nat) : Bool :=
  match siteNetOf info with
  | some p => ipInNet p ip
  | none => false

/-- The record does not blow up the scan: either it is skipped outright or
its subnet data parses. -/
def recordOk (info : SiteRecord) : Bool :=
  !recordTruthy info || (siteNetOf info).isSome

/-- The record raises inside the scan loop: truthy fields, unparsable data. -/
def recordAborts (info : SiteRecord) : Bool :=
  recordTruthy info && !(siteNetOf info).isSome

/-- Every record of the directory is harmless to scan. -/
def dirOk (dir : SiteDirectory) : Bool :=
  dir.all fun e => recordOk e.2

/-! ### `NetworkConfig.find_site_by_ip` (services/network_config.py 18-39)

The Python `try` block spans the whole `for` loop, so an exception raised
while building one record's network object makes the function return
`(None, None)` at once; that is modelled by `scanSites` returning `none`
when a truthy record's data fails to parse. -/

def scanSites (ip : Nat) : SiteDirectory → Option (String × SiteRecord)
  | [] => none
  | (key, info) :: rest =>
    if recordTruthy info then
      match siteNetOf info with
      | none => none
      | some p => if ipInNet p ip then some (key, info) else scanSites ip rest
    else scanSites ip rest

/-- `NetworkConfig.find_site_by_ip`: parse the management IP, then scan the
directory in insertion order; `none` models the `(None, None)` result. -/
def find_site_by_ip (dir : SiteDirectory) (mgmt_ip : String) :
    Option (String × SiteRecord) :=
  match parseIPv4 mgmt_ip with
  | none => none
  | some ip => scanSites ip dir

/-! ### `NetworkConfig.generate_hostname` (services/network_config.py 41-55) -/

def generate_hostname (mgmt_ip template_name : String) : String :=
  let octets := pySplit mgmt_ip '.'
  let suffix := joinWith "-" (octets.drop 1)
  let t_name := pyLower template_name
  let pfx :=
    if substrB "6300" t_name then "ae6300"
    else if substrB "4100" t_name then "ae4100i"
    else "sw"
  pfx ++ "-" ++ suffix

/-- `net_cfg.generate_hostname` (net_cfg.py 37-52): the module-level variant,
identical except that the template name is inspected without lower-casing
(immaterial for the all-digit markers). -/
def generate_hostname_module (mgmt_ip template_name : String) : String :=
  let octets := pySplit mgmt_ip '.'
  let suffix := joinWith "-" (octets.drop 1)
  let pfx :=
    if substrB "6300" template_name then "ae6300"
    else if substrB "4100" template_name then "ae4100i"
    else "sw"
  pfx ++ "-" ++ suffix

/-- `net_cfg.get_data_vlan` (net_cfg.py 54-60). -/
def get_data_vlan (dir : SiteDirectory) (mgmt_ip : String) : String × String :=
  match find_site_by_ip dir mgmt_ip with
  | some (_, info) =>
    ((info.data_vlan.bind VlanBlock.id).getD "1",
     (info.data_vlan.bind VlanBlock.name).getD "default")
  | none => ("1", "default")

/-! ### `TemplateManager` (services/templates.py)

The template directory is modelled as an association list from file stem to
file text (`stem ↦ read_text` of `stem + ".j2"`); the filesystem path prefix
is elided from the not-found message as environment noise. -/

abbrev TemplateStore := List (String × String)

/-- `TemplateManager._normalize` (templates.py 8-18). -/
def _normalize (name : String) : String :=
  let n := pyStrip name
  if endsWithB ".j2" (pyLower n) then String.mk (n.data.take (n.data.length - 3))
  else n

/-- `TemplateManager.list_templates` (templates.py 20-22): sorted stems. -/
def list_templates (store : TemplateStore) : List String :=
  (store.map Prod.fst).insertionSort (· ≤ ·)

/-- `TemplateManager.load_template` (templates.py 24-34). -/
def load_template (store : TemplateStore) (name : String) : Except String String :=
  let key := _normalize name
  match store.lookup key with
  | some text => .ok text
  | none =>
    .error ("Template not found: " ++ key ++ ".j2 (available: " ++
      joinWith ", " (list_templates store) ++ ")")

/-! ### The `/generate` handler (app.py 88-170)

The HTTP plumbing is elided: the handler body becomes a function from the
loaded site directory, the template store and the validated request to
either an HTTP-style error `(status, detail)` or the success record. -/

/-- The request body (`SwitchRequest`, app.py 34-41). -/
structure SwitchRequest where
  mgmt_ip : String
  hostname : Option String
  serial : String
  mac : String
  location : String
  template : String
  send_to_central : Bool
deriving DecidableEq

/-- The JSON object returned on success (app.py 164-170).  Variable values
are `Option String`: `none` models Python `None` (JSON `null`). -/
structure ConfigResult where
  success : Bool
  hostname : String
  config : String
  payload_json : List (String × Option String)
  serial : String
deriving DecidableEq

/-- `hostname = (req.hostname or "").strip() or net_cfg.generate_hostname(...)`
(app.py 109). -/
def hostnameOf (req : SwitchRequest) : String :=
  let h := pyStrip (req.hostname.getD "")
  if h = "" then generate_hostname req.mgmt_ip req.template else h

/-- `profile_type = "av" if "av" in req.template.lower() else "standard"`
(app.py 117). -/
def profile_type (template : String) : String :=
  if substrB "av" (pyLower template) then "av" else "standard"

/-- `profile_vlans = site_info.get("profiles", {}).get(profile_type, {})`
(app.py 118). -/
def profile_vlans (site : SiteRecord) (template : String) :
    List (String × String) :=
  (site.profiles.lookup (profile_type template)).getD []

/-- Python dict assignment `d[k] = v` on an insertion-ordered association
list: an existing key keeps its position and gets the new value, a new key
is appended. -/
def dictInsert (d : List (String × Option String)) (kv : String × Option String) :
    List (String × Option String) :=
  if (d.map Prod.fst).contains kv.1 then
    d.map fun e => if e.1 == kv.1 then (e.1, kv.2) else e
  else d ++ [kv]

/-- A dict literal followed by a sequence of assignments. -/
def pyDict (init updates : List (String × Option String)) :
    List (String × Option String) :=
  updates.foldl dictInsert init

/-- The `_sys_` variable dict (app.py 121-139): the eight-entry literal,
then the voice pair assigned only when the site's `voice_vlan` is truthy,
then one `_sys_{vid}_vlan_name` assignment per profile VLAN (dict semantics:
an assignment to an existing key overwrites it). -/
def central_vars (req : SwitchRequest) (hostname : String) (site : SiteRecord) :
    List (String × Option String) :=
  pyDict
    [("_sys_hostname", some hostname),
     ("_sys_mgnt_ip", some req.mgmt_ip),
     ("_sys_serial", some req.serial),
     ("_sys_lan_mac", some req.mac),
     ("_sys_location", some (if req.location = "" then "default_location" else req.location)),
     ("_sys_gateway", site.gateway),
     ("_sys_data_vlan_id", site.data_vlan.bind VlanBlock.id),
     ("_sys_data_vlan_name", site.data_vlan.bind VlanBlock.name)]
    ((match site.voice_vlan with
      | some vb => [("_sys_voice_vlan_id", vb.id), ("_sys_voice_vlan_name", vb.name)]
      | none => [])
     ++ (profile_vlans site req.template).map
        (fun p => ("_sys_" ++ p.1 ++ "_vlan_name", some p.2)))

/-- `central_payload = {req.serial: central_vars}` (app.py 143-145).  The
handler builds this serial-keyed mapping but the returned JSON does not use
it (app.py 164-170 sends `central_vars` directly plus a separate serial). -/
def central_payload (req : SwitchRequest) (hostname : String) (site : SiteRecord) :
    List (String × List (String × Option String)) :=
  [(req.serial, central_vars req hostname site)]

/-- `profile_block` (app.py 148): one `vlan/name/!` stanza per profile VLAN. -/
def profile_block (pv : List (String × String)) : String :=
  pv.foldr (fun p acc => "vlan " ++ p.1 ++ "\n name " ++ p.2 ++ "\n!\n" ++ acc) ""

/-- The template tokens (written with escaped braces). -/
def tokHostname : String := "\x7b\x7bhostname\x7d\x7d"

def tokAccess : String := "\x7b\x7baccess_vlan\x7d\x7d"

def tokVoice : String := "\x7b\x7bvoice_vlan\x7d\x7d"

def tokGateway : String := "\x7b\x7bgateway\x7d\x7d"

def tokLocation : String := "\x7b\x7blocation\x7d\x7d"

def tokProfile : String := "\x7b\x7bprofile_vlans\x7d\x7d"

/-- The trunk-list token named by the spec's fixed token set; it does not
appear in the `replacements` dict of app.py. -/
def tokTrunk : String := "\x7b\x7btrunk_allowed_vlans\x7d\x7d"

/-- The `replacements` dict (app.py 150-158), in insertion order, with the
raw Python values (`None` as `none`). -/
def replacements (req : SwitchRequest) (site : SiteRecord) (hostname : String) :
    List (String × Option String) :=
  [(tokHostname, some hostname),
   (tokAccess, some ((site.data_vlan.bind VlanBlock.id).getD "1")),
   (tokVoice,
     some (match site.voice_vlan with
           | some vb => vb.id.getD ""
           | none => "")),
   (tokGateway, site.gateway),
   (tokLocation, some req.location),
   (tokProfile, some (profile_block (profile_vlans site req.template)))]

/-- `str(v or "")` as applied in the replacement loop (app.py 162). -/
def strVal (v : Option String) : String := v.getD ""

/-- The replacement loop (app.py 160-162). -/
def renderConfig (text : String) (reps : List (String × Option String)) : String :=
  reps.foldl (fun cfg p => pyReplace cfg p.1 (strVal p.2)) text

/-- The success response (app.py 164-170). -/
def mkConfigResult (req : SwitchRequest) (site : SiteRecord) (text : String) :
    ConfigResult :=
  let hostname := hostnameOf req
  { success := true
    hostname := hostname
    config := renderConfig text (replacements req site hostname)
    payload_json := central_vars req hostname site
    serial := req.serial }

/-- The fixed detail string of the site-not-found failure (app.py 100). -/
def siteNotFoundMsg : String :=
  "IP does not match any known site in network_config.json"

/-- The handler body `generate_config` (app.py 88-170): validate the IP,
resolve the site, load the template, then derive and render. -/
def generate_config (dir : SiteDirectory) (store : TemplateStore)
    (req : SwitchRequest) : Except (Nat × String) ConfigResult :=
  match parseIPv4 req.mgmt_ip with
  | none => .error (400, "Invalid management IP")
  | some _ =>
    match find_site_by_ip dir req.mgmt_ip with
    | none => .error (400, siteNotFoundMsg)
    | some (_, site_info) =>
      match load_template store req.template with
      | .error e => .error (400, e)
      | .ok template_text => .ok (mkConfigResult req site_info template_text)


/-! ### Specification-side definitions and concrete fixtures -/

/-- The hostname-prefix policy as the source's inner conditional states it:
case-insensitive inspection of the template identifier, `"6300"` first. -/
def hostnamePfx (template_name : String) : String :=
  if substrB "6300" (pyLower template_name) then "ae6300"
  else if substrB "4100" (pyLower template_name) then "ae4100i"
  else "sw"

/-- The string has no trailing whitespace (`strip` leaves its tail alone). -/
def noTrailWS (s : String) : Bool :=
  match s.data.getLast? with
  | some c => !isSpaceChar c
  | none => true

/-- Order-preserving deduplication keeping first occurrences. -/
def dedupKeepFirst : List String → List String
  | [] => []
  | x :: xs => x :: (dedupKeepFirst xs).filter (fun y => y ≠ x)

/-- Modelled from the spec: the trunk-list construction (`build_trunk_list`
is called by test_backend.py but defined nowhere in the sources).  Spec
words: the data VLAN id, the voice VLAN id if present, then every VLAN id of
the selected profile's set, deduplicated, comma-joined in that order. -/
def build_trunk_list_spec (dataId : String) (voiceId : Option String)
    (pv : List (String × String)) : String :=
  joinWith ","
    (dedupKeepFirst
      (dataId ::
        ((match voiceId with | some v => [v] | none => []) ++ pv.map Prod.fst)))

/-- A well-formed site on 10.1.0.0/16. -/
def wsiteA : SiteRecord :=
  { network_address := some "10.1.0.0", subnet_mask := some "16",
    gateway := some "10.1.0.1", data_vlan := some ⟨some "11", some "data-a"⟩,
    voice_vlan := none, profiles := [] }

/-- A site whose `network_address` is a host address inside 172.22.18.0/24
(host bits must be cleared by the non-strict interpretation). -/
def wsiteB : SiteRecord :=
  { network_address := some "172.22.18.99", subnet_mask := some "255.255.255.0",
    gateway := some "172.22.18.1", data_vlan := some ⟨some "10", some "data"⟩,
    voice_vlan := some ⟨some "20", some "voice"⟩,
    profiles := [("av", [("30", "av-vlan")]), ("standard", [])] }

def dirW : SiteDirectory := [("campus", wsiteA), ("anatomy", wsiteB)]

/-- A well-formed record whose subnet (192.168.5.0/24) misses the probes. -/
def c3pre : SiteRecord :=
  { network_address := some "192.168.5.0", subnet_mask := some "24",
    gateway := none, data_vlan := none, voice_vlan := none, profiles := [] }

/-- A record with truthy but unparsable subnet data. -/
def c3bad : SiteRecord :=
  { network_address := some "not-an-ip", subnet_mask := some "24",
    gateway := none, data_vlan := none, voice_vlan := none, profiles := [] }

/-- A well-formed record on 10.0.0.0/24. -/
def c3good : SiteRecord :=
  { network_address := some "10.0.0.0", subnet_mask := some "24",
    gateway := some "10.0.0.1", data_vlan := some ⟨some "10", some "data"⟩,
    voice_vlan := none, profiles := [] }

/-- A record with a missing `network_address` (skipped, not aborting). -/
def c3skip : SiteRecord :=
  { network_address := none, subnet_mask := some "24",
    gateway := none, data_vlan := none, voice_vlan := none, profiles := [] }

def c3dir : SiteDirectory := [("bad", c3bad), ("good", c3good)]

def c4site : SiteRecord :=
  { network_address := some "172.22.18.0", subnet_mask := some "24",
    gateway := some "172.22.18.1", data_vlan := some ⟨some "10", some "data"⟩,
    voice_vlan := some ⟨some "20", some "voice"⟩,
    profiles := [("av", [("30", "av-vlan")])] }

def c4dir : SiteDirectory := [("anatomy", c4site)]

def c4req : SwitchRequest :=
  { mgmt_ip := "172.22.18.241", hostname := none, serial := "TW52KYL01X",
    mac := "7c:a8:ec:55:20:c0", location := "Room 1", template := "6300m-av",
    send_to_central := false }

/-- A template consisting of precisely the trunk token. -/
def c4store : TemplateStore := [("6300m-av", tokTrunk)]

def c4result : ConfigResult := mkConfigResult c4req c4site tokTrunk

def c5store : TemplateStore := [("6300m-av", "hostname placeholder")]

/-- A site without a voice VLAN whose standard profile has a VLAN whose id
is the literal string "voice". -/
def c6site : SiteRecord :=
  { network_address := some "10.5.0.0", subnet_mask := some "24",
    gateway := some "10.5.0.1", data_vlan := some ⟨some "10", some "data"⟩,
    voice_vlan := none, profiles := [("standard", [("voice", "pseudo")])] }

def c6dir : SiteDirectory := [("s6", c6site)]

def c6req : SwitchRequest :=
  { mgmt_ip := "10.5.0.7", hostname := none, serial := "S6", mac := "m6",
    location := "L6", template := "plain", send_to_central := false }

def c6store : TemplateStore := [("plain", "cfg")]

/-- A site with a voice VLAN and benign profiles, for the witness. -/
def c6wsite : SiteRecord :=
  { network_address := some "10.5.1.0", subnet_mask := some "24",
    gateway := some "10.5.1.1", data_vlan := some ⟨some "10", some "data"⟩,
    voice_vlan := some ⟨some "20", some "voice"⟩,
    profiles := [("standard", [("40", "iot")])] }

def c6wdir : SiteDirectory := [("s6w", c6wsite)]

def c6wreq : SwitchRequest :=
  { mgmt_ip := "10.5.1.7", hostname := none, serial := "S6W", mac := "m6w",
    location := "L6W", template := "plain", send_to_central := false }

/-- A site record lacking the `data_vlan` block. -/
def c7site : SiteRecord :=
  { network_address := some "10.6.0.0", subnet_mask := some "24",
    gateway := some "10.6.0.1", data_vlan := none, voice_vlan := none,
    profiles := [] }

def c7dir : SiteDirectory := [("s7", c7site)]

def c7req : SwitchRequest :=
  { mgmt_ip := "10.6.0.9", hostname := none, serial := "S7", mac := "m7",
    location := "L7", template := "t", send_to_central := false }

/-- A template consisting of precisely the access-vlan token. -/
def c7store : TemplateStore := [("t", tokAccess)]

def c8store : TemplateStore := [("a", "T1"), ("a.j2", "T2")]

def c8wstore : TemplateStore := [("6300m-standard", "interface vlan 1")]

def c9dir : SiteDirectory := [("main", wsiteA)]

def c9req : SwitchRequest :=
  { mgmt_ip := "10.2.3.4", hostname := none, serial := "S9", mac := "m9",
    location := "L9", template := "t", send_to_central := false }

def c9store : TemplateStore := [("t", "x")]

def c10site : SiteRecord :=
  { network_address := some "10.7.0.0", subnet_mask := some "24",
    gateway := some "10.7.0.1", data_vlan := some ⟨some "10", some "data"⟩,
    voice_vlan := none, profiles := [] }

def c10dir : SiteDirectory := [("s10", c10site)]

/-- A request whose location is the empty string. -/
def c10req : SwitchRequest :=
  { mgmt_ip := "10.7.0.3", hostname := none, serial := "S10", mac := "m10",
    location := "", template := "t", send_to_central := false }

/-- A template consisting of precisely the location token. -/
def c10store : TemplateStore := [("t", tokLocation)]

deriving instance DecidableEq for Except

/-! ### General helper lemmas -/

theorem strData_inj {s t : String} (h : s.data = t.data) : s = t := by
  cases s; cases t; simp_all

theorem isPrefixOf_self_append (l t : List Char) : l.isPrefixOf (l ++ t) = true := by
  induction l with
  | nil => simp [List.isPrefixOf]
  | cons c cs ih => simp [List.isPrefixOf, ih]

theorem isPrefixOf_append_of_isPrefixOf (p l t : List Char)
    (h : p.isPrefixOf l = true) : p.isPrefixOf (l ++ t) = true := by
  induction p generalizing l with
  | nil => simp [List.isPrefixOf]
  | cons a as ih =>
    cases l with
    | nil => simp [List.isPrefixOf] at h
    | cons b bs =>
      simp only [List.isPrefixOf, List.cons_append, Bool.and_eq_true] at h ⊢
      exact ⟨h.1, ih bs h.2⟩

theorem isPrefixOf_mem (p l : List Char) (h : p.isPrefixOf l = true) :
    ∀ c ∈ p, c ∈ l := by
  induction p generalizing l with
  | nil => intro c hc; cases hc
  | cons a as ih =>
    cases l with
    | nil => simp [List.isPrefixOf] at h
    | cons b bs =>
      simp only [List.isPrefixOf, Bool.and_eq_true, beq_iff_eq] at h
      intro c hc
      rcases List.mem_cons.mp hc with rfl | hc
      · exact h.1 ▸ List.mem_cons_self _ _
      · exact List.mem_cons_of_mem _ (ih bs h.2 c hc)

theorem startsWithB_append (p t : String) : startsWithB p (p ++ t) = true := by
  unfold startsWithB
  rw [String.data_append]
  exact isPrefixOf_self_append p.data t.data

theorem endsWithB_append (sfx y : String) : endsWithB sfx (y ++ sfx) = true := by
  unfold endsWithB
  rw [String.data_append, List.reverse_append]
  exact isPrefixOf_self_append sfx.data.reverse y.data.reverse

/-- Strings built as `p ++ mid ++ sfx` with the same `p` and `sfx` have equal
middles when equal. -/
theorem append_middle_inj (p sfx mid mid' : String)
    (h : p ++ mid ++ sfx = p ++ mid' ++ sfx) : mid = mid' := by
  have hd : p.data ++ mid.data ++ sfx.data = p.data ++ mid'.data ++ sfx.data := by
    have := congrArg String.data h
    simpa [String.data_append] using this
  apply strData_inj
  have h1 : mid.data ++ sfx.data = mid'.data ++ sfx.data := by
    have h0 : p.data ++ (mid.data ++ sfx.data) = p.data ++ (mid'.data ++ sfx.data) := by
      simpa [List.append_assoc] using hd
    exact List.append_cancel_left h0
  exact List.append_cancel_right h1

/-! ### Claim C2: hostname synthesis -/

/-- C2.  Hostname synthesis: for a management address whose dotted split is
`[o1, o2, o3, o4]`, the generated hostname is the selected prefix followed
by the last three octets joined with dashes; the prefix policy inspects the
lower-cased template identifier for `"6300"` first, then `"4100"`, else
`"sw"` (`hostnamePfx`).  Determinism and purity hold definitionally, as
`generate_hostname` is a function of its two arguments alone. -/
theorem C2_generate_hostname_spec (ip t o1 o2 o3 o4 : String)
    (h : pySplit ip '.' = [o1, o2, o3, o4]) :
    generate_hostname ip t = hostnamePfx t ++ "-" ++ o2 ++ "-" ++ o3 ++ "-" ++ o4 := by
  unfold generate_hostname hostnamePfx
  rw [h]
  simp only [List.drop_succ_cons, List.drop_zero, joinWith, String.append_assoc]

/-- C2 witness: the spec's own examples, at a template carrying both model
markers (the `"6300"` check wins). -/
theorem C2_witness :
    pySplit "172.22.18.241" '.' = ["172", "22", "18", "241"] ∧
    generate_hostname "172.22.18.241" "x6300-4100" =
      hostnamePfx "x6300-4100" ++ "-" ++ "22" ++ "-" ++ "18" ++ "-" ++ "241" ∧
    hostnamePfx "x6300-4100" = "ae6300" ∧
    generate_hostname "172.22.18.241" "standard" = "sw-22-18-241" :=
  ⟨by decide,
   C2_generate_hostname_spec "172.22.18.241" "x6300-4100" "172" "22" "18" "241"
     (by decide),
   by decide, by decide⟩

/-! ### Claim C1: site resolution by subnet containment -/

theorem recordContains_eq_false_of_not_truthy (info : SiteRecord) (ip : Nat)
    (h : recordTruthy info = false) : recordContains info ip = false := by
  unfold recordContains siteNetOf
  unfold recordTruthy at h
  cases hna : info.network_address with
  | none => simp [hna]
  | some a =>
    cases hsm : info.subnet_mask with
    | none => simp [hna, hsm]
    | some m =>
      rw [hna, hsm] at h
      have hnot : ¬(a ≠ "" ∧ m ≠ "") := by
        intro hcon
        simp [hcon.1, hcon.2] at h
      simp [hna, hsm, hnot]

theorem scanSites_eq_find? (ip : Nat) (dir : SiteDirectory)
    (hok : dirOk dir = true) :
    scanSites ip dir = dir.find? (fun e => recordContains e.2 ip) := by
  induction dir with
  | nil => rfl
  | cons e rest ih =>
    obtain ⟨key, info⟩ := e
    have hok' : recordOk info = true ∧ dirOk rest = true := by
      simpa [dirOk] using hok
    unfold scanSites
    cases ht : recordTruthy info with
    | false =>
      have hc := recordContains_eq_false_of_not_truthy info ip ht
      simp [List.find?_cons, hc, ih hok'.2]
    | true =>
      have hs : (siteNetOf info).isSome = true := by
        have h1 := hok'.1
        unfold recordOk at h1
        rw [ht] at h1
        simpa using h1
      obtain ⟨p, hp⟩ := Option.isSome_iff_exists.mp hs
      have hrc : recordContains info ip = ipInNet p ip := by
        unfold recordContains; rw [hp]
      cases hin : ipInNet p ip with
      | true => simp [hp, hin, List.find?_cons, hrc]
      | false => simp [hp, hin, List.find?_cons, hrc, ih hok'.2]

/-- C1.  Site resolution: over a directory whose records all scan cleanly,
resolving an IPv4 address yields exactly the first record in insertion
order whose declared subnet (network address with host bits cleared,
base and broadcast included — see `siteNet`/`ipInNet`) contains it, and
`none` (the not-found result) when no record's subnet contains it, since
then the `find?` on the right is `none`. -/
theorem C1_find_site_by_ip_spec (dir : SiteDirectory) (ipStr : String) (ip : Nat)
    (hp : parseIPv4 ipStr = some ip) (hok : dirOk dir = true) :
    find_site_by_ip dir ipStr = dir.find? (fun e => recordContains e.2 ip) := by
  unfold find_site_by_ip
  rw [hp]
  exact scanSites_eq_find? ip dir hok

/-- C1 witness: `172.22.18.255` is the broadcast address of the subnet that
`wsiteB` declares through a host address (`172.22.18.99/255.255.255.0`); the
resolver returns `wsiteB`, and an address outside both subnets resolves to
`none`. -/
theorem C1_witness :
    parseIPv4 "172.22.18.255" = some 2887127807 ∧
    dirOk dirW = true ∧
    find_site_by_ip dirW "172.22.18.255" =
      dirW.find? (fun e => recordContains e.2 2887127807) ∧
    find_site_by_ip dirW "172.22.18.255" = some ("anatomy", wsiteB) ∧
    find_site_by_ip dirW "10.99.0.1" = none :=
  ⟨by decide, by decide,
   C1_find_site_by_ip_spec dirW "172.22.18.255" 2887127807 (by decide) (by decide),
   by decide, by decide⟩

/-! ### Claim C3: behaviour on malformed records -/

/-- C3 counterexample: the directory `c3dir` holds a record with truthy but
unparsable subnet data before a well-formed record whose subnet contains
`10.0.0.5`; the claim says the bad record is skipped and the later record
returned, but the lookup returns the not-found result (the Python `try`
wraps the whole loop, so the exception aborts the scan). -/
theorem C3_counterexample :
    parseIPv4 "10.0.0.5" = some 167772165 ∧
    recordContains c3good 167772165 = true ∧
    find_site_by_ip c3dir "10.0.0.5" = none ∧
    find_site_by_ip c3dir "10.0.0.5" ≠ some ("good", c3good) :=
  ⟨by decide, by decide, by decide, by decide⟩

/-- C3 (amended).  A record with truthy but unparsable
`network_address`/`subnet_mask` data aborts the whole lookup: if every
earlier record scans cleanly without containing the IP, resolution returns
the not-found result regardless of later records.  Only records whose
`network_address` or `subnet_mask` is missing or empty are skipped with the
scan continuing. -/
theorem C3_amended :
    (∀ (pre post : SiteDirectory) (key ipStr : String) (bad : SiteRecord) (ip : Nat),
      parseIPv4 ipStr = some ip →
      pre.all (fun e => recordOk e.2 && !recordContains e.2 ip) = true →
      recordAborts bad = true →
      find_site_by_ip (pre ++ (key, bad) :: post) ipStr = none) ∧
    (∀ (pre post : SiteDirectory) (key ipStr : String) (info : SiteRecord),
      recordTruthy info = false →
      find_site_by_ip (pre ++ (key, info) :: post) ipStr =
        find_site_by_ip (pre ++ post) ipStr) := by
  constructor
  · intro pre post key ipStr bad ip hp hpre hab
    unfold find_site_by_ip
    rw [hp]
    unfold recordAborts at hab
    rw [Bool.and_eq_true] at hab
    have ht : recordTruthy bad = true := hab.1
    have hn : siteNetOf bad = none := by
      cases hs : siteNetOf bad with
      | none => rfl
      | some p => rw [hs] at hab; simp at hab
    induction pre with
    | nil => simp [scanSites, ht, hn]
    | cons e rest ih =>
      obtain ⟨k0, i0⟩ := e
      rw [List.all_cons, Bool.and_eq_true] at hpre
      have h0 := hpre.1
      rw [Bool.and_eq_true] at h0
      cases ht0 : recordTruthy i0 with
      | false => simpa [scanSites, ht0] using ih hpre.2
      | true =>
        have hs0 : (siteNetOf i0).isSome = true := by
          have := h0.1
          unfold recordOk at this
          rw [ht0] at this
          simpa using this
        obtain ⟨p, hp0⟩ := Option.isSome_iff_exists.mp hs0
        have hin : ipInNet p ip = false := by
          have := h0.2
          unfold recordContains at this
          rw [hp0] at this
          simpa using this
        simpa [scanSites, ht0, hp0, hin] using ih hpre.2
  · intro pre post key ipStr info ht
    unfold find_site_by_ip
    cases hp : parseIPv4 ipStr with
    | none => rfl
    | some ip =>
      induction pre with
      | nil => simp [scanSites, ht]
      | cons e rest ih =>
        obtain ⟨k0, i0⟩ := e
        cases ht0 : recordTruthy i0 with
        | false => simpa [scanSites, ht0] using ih
        | true =>
          cases hs0 : siteNetOf i0 with
          | none => simp [scanSites, ht0, hs0]
          | some p =>
            cases hin : ipInNet p ip with
            | true => simp [scanSites, ht0, hs0, hin]
            | false => simpa [scanSites, ht0, hs0, hin] using ih

/-- C3 witness: both amended behaviours at concrete directories — the abort
after a clean non-matching record, and the silent skip of a record with a
missing `network_address`. -/
theorem C3_witness :
    parseIPv4 "10.0.0.5" = some 167772165 ∧
    [("lab", c3pre)].all (fun e => recordOk e.2 && !recordContains e.2 167772165) = true ∧
    recordAborts c3bad = true ∧
    find_site_by_ip ([("lab", c3pre)] ++ ("bad", c3bad) :: [("good", c3good)])
      "10.0.0.5" = none ∧
    recordTruthy c3skip = false ∧
    find_site_by_ip ([("lab", c3pre)] ++ ("skip", c3skip) :: [("good", c3good)])
        "10.0.0.5" =
      find_site_by_ip ([("lab", c3pre)] ++ [("good", c3good)]) "10.0.0.5" :=
  ⟨by decide, by decide, by decide,
   C3_amended.1 [("lab", c3pre)] [("good", c3good)] "bad" "10.0.0.5" c3bad
     167772165 (by decide) (by decide) (by decide),
   by decide,
   C3_amended.2 [("lab", c3pre)] [("good", c3good)] "skip" "10.0.0.5" c3skip
     (by decide)⟩

/-! ### Claim C8: template-name normalization round trip -/

theorem dropWhile_append_stop (p : Char → Bool) (l sfx : List Char)
    (h : sfx.dropWhile p = sfx) :
    (l ++ sfx).dropWhile p = l.dropWhile p ++ sfx := by
  induction l with
  | nil => simpa using h
  | cons c t ih =>
    cases hc : p c with
    | true => simpa [List.dropWhile_cons, hc] using ih
    | false => simp [List.dropWhile_cons, hc]

theorem trimLeftL_append_j2 (l : List Char) :
    trimLeftL (l ++ ['.', 'j', '2']) = trimLeftL l ++ ['.', 'j', '2'] :=
  dropWhile_append_stop isSpaceChar l _ (by decide)

theorem trimRightL_append_j2 (y : List Char) :
    trimRightL (y ++ ['.', 'j', '2']) = y ++ ['.', 'j', '2'] := by
  unfold trimRightL
  have h1 : (y ++ ['.', 'j', '2']).reverse = '2' :: 'j' :: '.' :: y.reverse := by
    simp
  rw [h1, List.dropWhile_cons, if_neg (by decide), ← h1, List.reverse_reverse]

theorem trimRightL_eq_self (l : List Char)
    (h : ∀ c, l.getLast? = some c → isSpaceChar c = false) : trimRightL l = l := by
  unfold trimRightL
  cases hr : l.reverse with
  | nil => simp [List.reverse_eq_nil_iff.mp hr]
  | cons c t =>
    have hc : l.getLast? = some c := by
      rw [← List.head?_reverse, hr]; rfl
    rw [List.dropWhile_cons, if_neg (by simp [h c hc]), ← hr,
      List.reverse_reverse]

theorem getLast?_trimLeftL (l : List Char) :
    trimLeftL l = [] ∨ (trimLeftL l).getLast? = l.getLast? := by
  unfold trimLeftL
  cases hd : l.dropWhile isSpaceChar with
  | nil => exact Or.inl rfl
  | cons c t =>
    right
    have hsplit : l = l.takeWhile isSpaceChar ++ (c :: t) := by
      rw [← hd, List.takeWhile_append_dropWhile]
    conv_rhs => rw [hsplit]
    exact (List.getLast?_append_of_ne_nil _ (by simp)).symm

theorem pyStrip_append_j2 (x : String) :
    pyStrip (x ++ ".j2") = String.mk (trimLeftL x.data ++ ['.', 'j', '2']) := by
  unfold pyStrip
  have hdata : (x ++ ".j2").data = x.data ++ ['.', 'j', '2'] := by
    rw [String.data_append]
  rw [hdata, trimLeftL_append_j2, trimRightL_append_j2]

theorem pyStrip_eq_trimLeft (x : String) (h1 : noTrailWS x = true) :
    pyStrip x = String.mk (trimLeftL x.data) := by
  unfold pyStrip
  rw [trimRightL_eq_self]
  intro c hc
  rcases getLast?_trimLeftL x.data with he | hl
  · rw [he] at hc; cases hc
  · rw [hl] at hc
    unfold noTrailWS at h1
    rw [hc] at h1
    simpa using h1

theorem endsWithB_j2_of_append (y : List Char) :
    endsWithB ".j2" (pyLower (String.mk (y ++ ['.', 'j', '2']))) = true := by
  unfold endsWithB pyLower
  show (".j2".data.reverse).isPrefixOf (((y ++ ['.', 'j', '2']).map Char.toLower).reverse) = true
  rw [List.map_append, List.reverse_append]
  have hmap : ((['.', 'j', '2'] : List Char).map Char.toLower) = ['.', 'j', '2'] := by decide
  rw [hmap]
  exact isPrefixOf_self_append _ _

theorem endsWithB_j2_trimLeft_false (x : String)
    (h2 : endsWithB ".j2" (pyLower x) = false) :
    endsWithB ".j2" (pyLower (String.mk (trimLeftL x.data))) = false := by
  cases hb : endsWithB ".j2" (pyLower (String.mk (trimLeftL x.data))) with
  | false => rfl
  | true =>
    exfalso
    have hb' : (".j2".data.reverse).isPrefixOf
        (((trimLeftL x.data).map Char.toLower).reverse) = true := hb
    have h2' : (".j2".data.reverse).isPrefixOf
        ((x.data.map Char.toLower).reverse) = false := h2
    have hsplit : x.data = x.data.takeWhile isSpaceChar ++ trimLeftL x.data := by
      unfold trimLeftL
      rw [List.takeWhile_append_dropWhile]
    have htrue : (".j2".data.reverse).isPrefixOf
        ((x.data.map Char.toLower).reverse) = true := by
      rw [hsplit, List.map_append, List.reverse_append]
      exact isPrefixOf_append_of_isPrefixOf _ _ _ hb'
    rw [htrue] at h2'
    cases h2'

theorem normalize_append_j2 (x : String) (h1 : noTrailWS x = true)
    (h2 : endsWithB ".j2" (pyLower x) = false) :
    _normalize (x ++ ".j2") = _normalize x := by
  unfold _normalize
  rw [pyStrip_append_j2 x, pyStrip_eq_trimLeft x h1]
  rw [if_pos (endsWithB_j2_of_append (trimLeftL x.data))]
  rw [if_neg (by simp [endsWithB_j2_trimLeft_false x h2])]
  show String.mk ((trimLeftL x.data ++ ['.', 'j', '2']).take
      ((trimLeftL x.data ++ ['.', 'j', '2']).length - 3)) =
    String.mk (trimLeftL x.data)
  simp [List.length_append, List.take_left]

/-- C8 counterexample: with templates whose stems are `"a"` and `"a.j2"`,
the identifier `x = "a.j2"` refutes the round trip: loading `"a.j2"`
normalizes to stem `"a"` and yields its text, while loading `"a.j2.j2"`
normalizes to stem `"a.j2"` and yields the other text, so the two loads are
not identical as the claim requires. -/
theorem C8_counterexample :
    load_template c8store "a.j2" = .ok "T1" ∧
    load_template c8store ("a.j2" ++ ".j2") = .ok "T2" ∧
    load_template c8store "a.j2" ≠ load_template c8store ("a.j2" ++ ".j2") :=
  ⟨by decide, by decide, by decide⟩

/-- C8 (amended).  Template-name round trip: for every identifier with no
trailing whitespace that does not itself end (case-insensitively) in the
template suffix `".j2"`, loading `x` and loading `x ++ ".j2"` resolve to the
same stored template — identical text, or identical not-found failure.
(The counterexample forces both side conditions: `strip` runs before the
suffix test, and only one trailing suffix is removed.) -/
theorem C8_load_template_j2 (store : TemplateStore) (x : String)
    (h1 : noTrailWS x = true) (h2 : endsWithB ".j2" (pyLower x) = false) :
    load_template store x = load_template store (x ++ ".j2") := by
  unfold load_template
  rw [normalize_append_j2 x h1 h2]

/-- C8 witness: the spec's own example identifier. -/
theorem C8_witness :
    noTrailWS "6300m-standard" = true ∧
    endsWithB ".j2" (pyLower "6300m-standard") = false ∧
    load_template c8wstore "6300m-standard" =
      load_template c8wstore ("6300m-standard" ++ ".j2") ∧
    load_template c8wstore "6300m-standard" = .ok "interface vlan 1" :=
  ⟨by decide, by decide,
   C8_load_template_j2 c8wstore "6300m-standard" (by decide) (by decide),
   by decide⟩

/-! ### Shared facts about `generate_config` and rendering -/

theorem find_site_some_parse (dir : SiteDirectory) (ipStr : String)
    (x : String × SiteRecord) (h : find_site_by_ip dir ipStr = some x) :
    ∃ ip, parseIPv4 ipStr = some ip := by
  unfold find_site_by_ip at h
  cases hp : parseIPv4 ipStr with
  | none => rw [hp] at h; cases h
  | some ip => exact ⟨ip, rfl⟩

theorem generate_config_ok_inv (dir : SiteDirectory) (store : TemplateStore)
    (req : SwitchRequest) (r : ConfigResult)
    (hok : generate_config dir store req = .ok r) :
    ∃ key site txt, find_site_by_ip dir req.mgmt_ip = some (key, site) ∧
      load_template store req.template = .ok txt ∧
      r = mkConfigResult req site txt := by
  unfold generate_config at hok
  cases hp : parseIPv4 req.mgmt_ip with
  | none => rw [hp] at hok; cases hok
  | some ip =>
    rw [hp] at hok
    cases hf : find_site_by_ip dir req.mgmt_ip with
    | none => rw [hf] at hok; cases hok
    | some ks =>
      rw [hf] at hok
      obtain ⟨key, site⟩ := ks
      cases hl : load_template store req.template with
      | error e => rw [hl] at hok; cases hok
      | ok txt =>
        rw [hl] at hok
        exact ⟨key, site, txt, rfl, rfl, (Except.ok.inj hok).symm⟩

theorem replaceAux_no_match (pat rep l : List Char)
    (h : containsSubL pat l = false) : replaceAux pat rep 0 l = l := by
  induction l with
  | nil => rfl
  | cons c cs ih =>
    unfold containsSubL at h
    rw [Bool.or_eq_false_iff] at h
    unfold replaceAux
    rw [if_neg (by simp [h.1]), ih h.2]

theorem pyReplace_no_occur (s pat rep : String) (h : substrB pat s = false) :
    pyReplace s pat rep = s := by
  unfold pyReplace
  unfold substrB at h
  rw [replaceAux_no_match pat.data rep.data s.data h]

theorem renderConfig_no_occur (text : String) (reps : List (String × Option String))
    (h : ∀ p ∈ reps, substrB p.1 text = false) : renderConfig text reps = text := by
  induction reps with
  | nil => rfl
  | cons p ps ih =>
    unfold renderConfig at ih ⊢
    rw [List.foldl_cons, pyReplace_no_occur text p.1 (strVal p.2) (h p (by simp))]
    exact ih (fun q hq => h q (by simp [hq]))

/-! ### Claim C4: the trunk-allowed-vlans token -/

/-- C4 counterexample: a successful generation against a template consisting
of exactly the token `\x7b\x7btrunk_allowed_vlans\x7d\x7d` returns that token verbatim as
the whole rendered config — the replacement loop (app.py 150-162) has no
entry for it — while the claim requires it to be replaced by the
comma-joined trunk list (which the spec-modelled construction renders as
`"10,20,30"` for this site). -/
theorem C4_counterexample :
    (generate_config c4dir c4store c4req).map (fun r => r.config) = .ok tokTrunk ∧
    (generate_config c4dir c4store c4req).map
      (fun r => substrB tokTrunk r.config) = .ok true ∧
    build_trunk_list_spec "10" (some "20") [("30", "av-vlan")] = "10,20,30" ∧
    tokTrunk ≠ "10,20,30" :=
  ⟨by decide, by decide, by decide, by decide⟩

/-- C4 (amended).  No trunk-list substitution exists: the replaced tokens
are exactly hostname, access_vlan, voice_vlan, gateway, location and
profile_vlans, so a successful generation whose template text is the
trunk token leaves it untouched — the rendered config still is (hence still
contains) the token. -/
theorem C4_amended (dir : SiteDirectory) (store : TemplateStore)
    (req : SwitchRequest) (r : ConfigResult)
    (hok : generate_config dir store req = .ok r)
    (htxt : load_template store req.template = .ok tokTrunk) :
    r.config = tokTrunk ∧ substrB tokTrunk r.config = true := by
  obtain ⟨key, site, txt, hf, hl, hr⟩ := generate_config_ok_inv dir store req r hok
  rw [htxt] at hl
  have htt : tokTrunk = txt := Except.ok.inj hl
  have hcfg : r.config = tokTrunk := by
    rw [hr, ← htt]
    show renderConfig tokTrunk (replacements req site (hostnameOf req)) = tokTrunk
    apply renderConfig_no_occur
    intro p hp
    simp only [replacements, List.mem_cons, List.not_mem_nil, or_false] at hp
    have hkey : p.1 = tokHostname ∨ p.1 = tokAccess ∨ p.1 = tokVoice ∨
        p.1 = tokGateway ∨ p.1 = tokLocation ∨ p.1 = tokProfile := by
      rcases hp with rfl | rfl | rfl | rfl | rfl | rfl <;> simp
    rcases hkey with h | h | h | h | h | h <;> rw [h] <;> decide
  exact ⟨hcfg, by rw [hcfg]; decide⟩

/-- C4 witness: the amended behaviour at the concrete fixture. -/
theorem C4_witness :
    generate_config c4dir c4store c4req = .ok c4result ∧
    load_template c4store c4req.template = .ok tokTrunk ∧
    c4result.config = tokTrunk ∧ substrB tokTrunk c4result.config = true := by
  refine ⟨by decide, by decide, ?_⟩
  exact C4_amended c4dir c4store c4req c4result (by decide) (by decide)

/-! ### Dict semantics lemmas -/

theorem dictInsert_keys_of_contains (d : List (String × Option String))
    (kv : String × Option String)
    (hc : (d.map Prod.fst).contains kv.1 = true) :
    (dictInsert d kv).map Prod.fst = d.map Prod.fst := by
  unfold dictInsert
  rw [if_pos hc, List.map_map]
  apply List.map_congr_left
  intro e _
  show (if e.1 == kv.1 then (e.1, kv.2) else e).1 = e.1
  split <;> rfl

theorem dictInsert_keys_of_not_contains (d : List (String × Option String))
    (kv : String × Option String)
    (hc : ¬(d.map Prod.fst).contains kv.1 = true) :
    (dictInsert d kv).map Prod.fst = d.map Prod.fst ++ [kv.1] := by
  unfold dictInsert
  rw [if_neg hc]
  simp

theorem mem_keys_dictInsert_self (d : List (String × Option String))
    (kv : String × Option String) : kv.1 ∈ (dictInsert d kv).map Prod.fst := by
  by_cases hc : (d.map Prod.fst).contains kv.1 = true
  · rw [dictInsert_keys_of_contains d kv hc]
    simpa using hc
  · rw [dictInsert_keys_of_not_contains d kv hc]
    simp

theorem mem_keys_dictInsert_of_mem (d : List (String × Option String))
    (kv : String × Option String) (k : String) (h : k ∈ d.map Prod.fst) :
    k ∈ (dictInsert d kv).map Prod.fst := by
  by_cases hc : (d.map Prod.fst).contains kv.1 = true
  · rwa [dictInsert_keys_of_contains d kv hc]
  · rw [dictInsert_keys_of_not_contains d kv hc]
    simp [h]

theorem mem_keys_of_mem_keys_dictInsert (d : List (String × Option String))
    (kv : String × Option String) (k : String)
    (h : k ∈ (dictInsert d kv).map Prod.fst) :
    k ∈ d.map Prod.fst ∨ k = kv.1 := by
  by_cases hc : (d.map Prod.fst).contains kv.1 = true
  · rw [dictInsert_keys_of_contains d kv hc] at h
    exact Or.inl h
  · rw [dictInsert_keys_of_not_contains d kv hc] at h
    simpa using h

theorem pyDict_keys_subset (upd init : List (String × Option String)) (k : String)
    (h : k ∈ (pyDict init upd).map Prod.fst) :
    k ∈ init.map Prod.fst ∨ k ∈ upd.map Prod.fst := by
  induction upd generalizing init with
  | nil => exact Or.inl h
  | cons kv rest ih =>
    unfold pyDict at h
    rw [List.foldl_cons] at h
    rcases ih (dictInsert init kv) h with h1 | h2
    · rcases mem_keys_of_mem_keys_dictInsert init kv k h1 with h3 | h4
      · exact Or.inl h3
      · exact Or.inr (by simp [h4])
    · exact Or.inr (by simp [h2])

theorem pyDict_keys_mono (upd init : List (String × Option String)) (k : String)
    (h : k ∈ init.map Prod.fst) : k ∈ (pyDict init upd).map Prod.fst := by
  induction upd generalizing init with
  | nil => exact h
  | cons kv rest ih =>
    unfold pyDict
    rw [List.foldl_cons]
    exact ih (dictInsert init kv) (mem_keys_dictInsert_of_mem init kv k h)

theorem pyDict_keys_of_upd (upd init : List (String × Option String))
    (kv : String × Option String) (h : kv ∈ upd) :
    kv.1 ∈ (pyDict init upd).map Prod.fst := by
  induction upd generalizing init with
  | nil => cases h
  | cons hd rest ih =>
    unfold pyDict
    rw [List.foldl_cons]
    rcases List.mem_cons.mp h with rfl | hmem
    · exact pyDict_keys_mono rest (dictInsert init kv) kv.1
        (mem_keys_dictInsert_self init kv)
    · exact ih (dictInsert init hd) hmem

theorem lookup_map_update (d : List (String × Option String))
    (kv : String × Option String) (k : String) (h : (k == kv.1) = false) :
    (d.map fun e => if e.1 == kv.1 then (e.1, kv.2) else e).lookup k =
      d.lookup k := by
  induction d with
  | nil => rfl
  | cons e es ih =>
    obtain ⟨ek, ev⟩ := e
    simp only [List.map_cons]
    by_cases he : (ek == kv.1) = true
    · rw [if_pos he]
      have hke : (k == ek) = false := by
        have h1 : ek = kv.1 := by simpa using he
        rw [h1]
        exact h
      simp only [List.lookup, hke]
      simpa using ih
    · rw [if_neg he]
      by_cases hk : (k == ek) = true <;> simp only [List.lookup, hk] <;>
        simpa using ih

theorem lookup_append_single (d : List (String × Option String))
    (kv : String × Option String) (k : String) (h : (k == kv.1) = false) :
    (d ++ [kv]).lookup k = d.lookup k := by
  induction d with
  | nil => simp [List.lookup, h]
  | cons e es ih =>
    by_cases hk : (k == e.1) = true <;> simp [List.lookup, hk, ih]

theorem dictInsert_lookup_ne (d : List (String × Option String))
    (kv : String × Option String) (k : String) (h : (k == kv.1) = false) :
    (dictInsert d kv).lookup k = d.lookup k := by
  unfold dictInsert
  by_cases hc : (d.map Prod.fst).contains kv.1 = true
  · rw [if_pos hc]
    exact lookup_map_update d kv k h
  · rw [if_neg hc]
    exact lookup_append_single d kv k h

theorem pyDict_lookup_not_upd (upd init : List (String × Option String))
    (k : String) (h : ∀ kv ∈ upd, (k == kv.1) = false) :
    (pyDict init upd).lookup k = init.lookup k := by
  induction upd generalizing init with
  | nil => rfl
  | cons kv rest ih =>
    unfold pyDict
    rw [List.foldl_cons]
    rw [show List.foldl dictInsert (dictInsert init kv) rest =
      pyDict (dictInsert init kv) rest from rfl]
    rw [ih (dictInsert init kv) (fun q hq => h q (by simp [hq]))]
    exact dictInsert_lookup_ne init kv k (h kv (by simp))

/-! ### Claim C5: payload keying -/

/-- C5 counterexample: at a concrete successful request the returned
`payload_json` is the flat `_sys_` variable set — its key list is the
`_sys_` keys and does not contain the serial `"TW52KYL01X"` — while the
claim requires a mapping keyed by the serial; the serial travels in the
separate `serial` field instead. -/
theorem C5_counterexample :
    (generate_config c4dir c5store c4req).map
      (fun r => (r.payload_json.map Prod.fst).contains "TW52KYL01X") = .ok false ∧
    (generate_config c4dir c5store c4req).map
      (fun r => r.payload_json.map Prod.fst) =
      .ok ["_sys_hostname", "_sys_mgnt_ip", "_sys_serial", "_sys_lan_mac",
           "_sys_location", "_sys_gateway", "_sys_data_vlan_id",
           "_sys_data_vlan_name", "_sys_voice_vlan_id", "_sys_voice_vlan_name",
           "_sys_30_vlan_name"] ∧
    (generate_config c4dir c5store c4req).map (fun r => r.serial) =
      .ok "TW52KYL01X" :=
  ⟨by decide, by decide, by decide⟩

/-- C5 (amended).  The Central variable payload in the returned result is
the flat `_sys_`-prefixed variable set: every key of `payload_json` starts
with `_sys_`, so (for any serial not itself `_sys_`-prefixed) the serial is
not among its keys; the serial is echoed in the separate `serial` field.
The serial-keyed mapping (`central_payload`, app.py 143-145) is built but
not returned. -/
theorem C5_amended (dir : SiteDirectory) (store : TemplateStore)
    (req : SwitchRequest) (r : ConfigResult)
    (hok : generate_config dir store req = .ok r)
    (hser : startsWithB "_sys_" req.serial = false) :
    (r.payload_json.map Prod.fst).all (fun k => startsWithB "_sys_" k) = true ∧
    req.serial ∉ r.payload_json.map Prod.fst ∧
    r.serial = req.serial := by
  obtain ⟨key, site, txt, hf, hl, hr⟩ := generate_config_ok_inv dir store req r hok
  subst hr
  have hpj : (mkConfigResult req site txt).payload_json =
      central_vars req (hostnameOf req) site := rfl
  have hall : ∀ k ∈ (central_vars req (hostnameOf req) site).map Prod.fst,
      startsWithB "_sys_" k = true := by
    intro k hk
    unfold central_vars at hk
    rcases pyDict_keys_subset _ _ k hk with hbase | hupd
    · have hb : k = "_sys_hostname" ∨ k = "_sys_mgnt_ip" ∨ k = "_sys_serial" ∨
          k = "_sys_lan_mac" ∨ k = "_sys_location" ∨ k = "_sys_gateway" ∨
          k = "_sys_data_vlan_id" ∨ k = "_sys_data_vlan_name" := by
        simpa using hbase
      rcases hb with rfl | rfl | rfl | rfl | rfl | rfl | rfl | rfl <;> decide
    · rw [List.map_append, List.mem_append] at hupd
      rcases hupd with hv | hp
      · cases hvv : site.voice_vlan with
        | none => rw [hvv] at hv; cases hv
        | some vb =>
          rw [hvv] at hv
          have hb : k = "_sys_voice_vlan_id" ∨ k = "_sys_voice_vlan_name" := by
            simpa using hv
          rcases hb with rfl | rfl <;> decide
      · simp only [List.map_map, List.mem_map] at hp
        obtain ⟨p, _, hpk⟩ := hp
        have : k = "_sys_" ++ (p.1 ++ "_vlan_name") := by
          rw [← hpk]
          show "_sys_" ++ p.1 ++ "_vlan_name" = "_sys_" ++ (p.1 ++ "_vlan_name")
          rw [String.append_assoc]
        rw [this]
        exact startsWithB_append "_sys_" (p.1 ++ "_vlan_name")
  refine ⟨?_, ?_, rfl⟩
  · rw [hpj, List.all_eq_true]
    exact hall
  · rw [hpj]
    intro hmem
    have := hall req.serial hmem
    rw [this] at hser
    cases hser

/-- C5 witness: the amended statement at the concrete fixture. -/
theorem C5_witness :
    startsWithB "_sys_" c4req.serial = false ∧
    generate_config c4dir c5store c4req =
      .ok (mkConfigResult c4req c4site "hostname placeholder") ∧
    (((mkConfigResult c4req c4site "hostname placeholder").payload_json.map
        Prod.fst).all (fun k => startsWithB "_sys_" k) = true ∧
      c4req.serial ∉
        (mkConfigResult c4req c4site "hostname placeholder").payload_json.map
          Prod.fst ∧
      (mkConfigResult c4req c4site "hostname placeholder").serial =
        c4req.serial) :=
  ⟨by decide, by decide,
   C5_amended c4dir c5store c4req (mkConfigResult c4req c4site "hostname placeholder")
     (by decide) (by decide)⟩

/-! ### Claim C6: voice VLAN key omission -/

theorem profile_key_ne_voice_id (vid : String) :
    ("_sys_" ++ vid ++ "_vlan_name") ≠ "_sys_voice_vlan_id" := by
  intro h
  have h1 : endsWithB "_vlan_name" ("_sys_" ++ vid ++ "_vlan_name") = true :=
    endsWithB_append "_vlan_name" ("_sys_" ++ vid)
  rw [h] at h1
  exact absurd h1 (by decide)

theorem profile_key_eq_voice_name (vid : String)
    (h : ("_sys_" ++ vid ++ "_vlan_name") = "_sys_voice_vlan_name") :
    vid = "voice" := by
  apply append_middle_inj "_sys_" "_vlan_name" vid "voice"
  rw [h]
  decide

/-- C6 counterexample: `c6site` has no voice VLAN, but its standard profile
carries a VLAN whose id is the string `"voice"`, whose Central variable key
`_sys_{vid}_vlan_name` is exactly `_sys_voice_vlan_name`; the key the claim
requires to be absent is present in the payload of a successful request. -/
theorem C6_counterexample :
    c6site.voice_vlan = none ∧
    (generate_config c6dir c6store c6req).map
      (fun r => (r.payload_json.map Prod.fst).contains "_sys_voice_vlan_name") =
      .ok true :=
  ⟨rfl, by decide⟩

/-- C6 (amended).  For a resolved site without a voice VLAN, the Central
variable set contains neither `_sys_voice_vlan_id` nor
`_sys_voice_vlan_name`, provided no VLAN id in the selected profile's set is
the literal string `"voice"` (such an id contributes the colliding key
`_sys_voice_vlan_name`, which the counterexample exploits); for a site with
a voice VLAN both keys are present. -/
theorem C6_amended (dir : SiteDirectory) (store : TemplateStore)
    (req : SwitchRequest) (r : ConfigResult) (key : String) (site : SiteRecord)
    (hok : generate_config dir store req = .ok r)
    (hf : find_site_by_ip dir req.mgmt_ip = some (key, site)) :
    (site.voice_vlan = none →
      (profile_vlans site req.template).all (fun p => !(p.1 == "voice")) = true →
      ("_sys_voice_vlan_id" ∉ r.payload_json.map Prod.fst ∧
       "_sys_voice_vlan_name" ∉ r.payload_json.map Prod.fst)) ∧
    (site.voice_vlan.isSome = true →
      ("_sys_voice_vlan_id" ∈ r.payload_json.map Prod.fst ∧
       "_sys_voice_vlan_name" ∈ r.payload_json.map Prod.fst)) := by
  obtain ⟨key', site', txt, hf', hl, hr⟩ := generate_config_ok_inv dir store req r hok
  rw [hf'] at hf
  have hss : site' = site := congrArg Prod.snd (Option.some.inj hf)
  subst hss
  subst hr
  have hpj : (mkConfigResult req site' txt).payload_json =
      central_vars req (hostnameOf req) site' := rfl
  rw [hpj]
  constructor
  · intro hv hprof
    unfold central_vars
    rw [hv]
    constructor
    · intro hmem
      rcases pyDict_keys_subset _ _ _ hmem with hbase | hupd
      · simp at hbase
      · simp only [List.nil_append, List.map_map, List.mem_map] at hupd
        obtain ⟨p, _, hpk⟩ := hupd
        exact profile_key_ne_voice_id p.1 hpk
    · intro hmem
      rcases pyDict_keys_subset _ _ _ hmem with hbase | hupd
      · simp at hbase
      · simp only [List.nil_append, List.map_map, List.mem_map] at hupd
        obtain ⟨p, hpmem, hpk⟩ := hupd
        have hveq : p.1 = "voice" := profile_key_eq_voice_name p.1 hpk
        have := List.all_eq_true.mp hprof p hpmem
        rw [hveq] at this
        simp at this
  · intro hv
    obtain ⟨vb, hvb⟩ := Option.isSome_iff_exists.mp hv
    unfold central_vars
    rw [hvb]
    exact ⟨pyDict_keys_of_upd _ _ ("_sys_voice_vlan_id", vb.id) (by simp),
           pyDict_keys_of_upd _ _ ("_sys_voice_vlan_name", vb.name) (by simp)⟩

/-- C6 witness: a site with a voice VLAN shows both keys present; the
no-voice implication is instantiated (vacuously) at the same site. -/
theorem C6_witness :
    generate_config c6wdir c6store c6wreq =
      .ok (mkConfigResult c6wreq c6wsite "cfg") ∧
    find_site_by_ip c6wdir c6wreq.mgmt_ip = some ("s6w", c6wsite) ∧
    ((c6wsite.voice_vlan = none →
      (profile_vlans c6wsite c6wreq.template).all
        (fun p => !(p.1 == "voice")) = true →
      ("_sys_voice_vlan_id" ∉
        (mkConfigResult c6wreq c6wsite "cfg").payload_json.map Prod.fst ∧
       "_sys_voice_vlan_name" ∉
        (mkConfigResult c6wreq c6wsite "cfg").payload_json.map Prod.fst)) ∧
     (c6wsite.voice_vlan.isSome = true →
      ("_sys_voice_vlan_id" ∈
        (mkConfigResult c6wreq c6wsite "cfg").payload_json.map Prod.fst ∧
       "_sys_voice_vlan_name" ∈
        (mkConfigResult c6wreq c6wsite "cfg").payload_json.map Prod.fst))) :=
  ⟨by decide, by decide,
   C6_amended c6wdir c6store c6wreq (mkConfigResult c6wreq c6wsite "cfg")
     "s6w" c6wsite (by decide) (by decide)⟩

/-! ### Claim C7: data VLAN defaults -/

theorem profile_key_ne (vid t : String)
    (ht : endsWithB "_vlan_name" t = false) :
    ("_sys_" ++ vid ++ "_vlan_name") ≠ t := by
  intro h
  have h1 : endsWithB "_vlan_name" ("_sys_" ++ vid ++ "_vlan_name") = true :=
    endsWithB_append "_vlan_name" ("_sys_" ++ vid)
  rw [h] at h1
  rw [h1] at ht
  cases ht

/-- C7 counterexample: for a request resolving to `c7site`, which lacks a
`data_vlan` block, the Central payload carries `_sys_data_vlan_id` with the
absent value (`None`/`null`, modelled `none`), not the claimed default
`"1"`. -/
theorem C7_counterexample :
    c7site.data_vlan = none ∧
    (generate_config c7dir c7store c7req).map
      (fun r => r.payload_json.lookup "_sys_data_vlan_id") = .ok (some none) ∧
    (Except.ok (some none) : Except (Nat × String) (Option (Option String))) ≠
      .ok (some (some "1")) :=
  ⟨rfl, by decide, by decide⟩

/-- C7 (amended).  When the resolved site lacks a `data_vlan` block, the
default pair `("1", "default")` is used by the `get_data_vlan` helper and
the `"1"` default by the `{{access_vlan}}` replacement (so a template
consisting of that token renders to `"1"`), but the Central variables
`_sys_data_vlan_id`/`_sys_data_vlan_name` are present with the absent value
`none` (`null`), not `"1"`/`"default"` (for the name key, provided no
profile VLAN id is the literal string `"data"`, which would overwrite it). -/
theorem C7_amended (dir : SiteDirectory) (store : TemplateStore)
    (req : SwitchRequest) (r : ConfigResult) (key : String) (site : SiteRecord)
    (hok : generate_config dir store req = .ok r)
    (hf : find_site_by_ip dir req.mgmt_ip = some (key, site))
    (hdv : site.data_vlan = none) :
    r.payload_json.lookup "_sys_data_vlan_id" = some none ∧
    ((profile_vlans site req.template).all (fun p => !(p.1 == "data")) = true →
      r.payload_json.lookup "_sys_data_vlan_name" = some none) ∧
    (replacements req site (hostnameOf req)).lookup tokAccess =
      some (some "1") ∧
    get_data_vlan dir req.mgmt_ip = ("1", "default") ∧
    (load_template store req.template = .ok tokAccess → r.config = "1") := by
  obtain ⟨key', site', txt, hf', hl, hr⟩ := generate_config_ok_inv dir store req r hok
  rw [hf'] at hf
  have hss : site' = site := congrArg Prod.snd (Option.some.inj hf)
  subst hss
  subst hr
  have hpj : (mkConfigResult req site' txt).payload_json =
      central_vars req (hostnameOf req) site' := rfl
  have hupd_ne_id : ∀ kv ∈ ((match site'.voice_vlan with
      | some vb => [("_sys_voice_vlan_id", vb.id), ("_sys_voice_vlan_name", vb.name)]
      | none => [])
      ++ (profile_vlans site' req.template).map
        (fun p => ("_sys_" ++ p.1 ++ "_vlan_name", some p.2))),
      ("_sys_data_vlan_id" == kv.1) = false := by
    intro kv hkv
    rcases List.mem_append.mp hkv with hv | hp
    · cases hvv : site'.voice_vlan with
      | none => rw [hvv] at hv; cases hv
      | some vb =>
        rw [hvv] at hv
        rcases List.mem_cons.mp hv with rfl | hv2
        · exact (by decide : ("_sys_data_vlan_id" == "_sys_voice_vlan_id") = false)
        · rcases List.mem_cons.mp hv2 with rfl | hv3
          · exact (by decide :
              ("_sys_data_vlan_id" == "_sys_voice_vlan_name") = false)
          · cases hv3
    · obtain ⟨p, _, rfl⟩ := List.mem_map.mp hp
      show ("_sys_data_vlan_id" == "_sys_" ++ p.1 ++ "_vlan_name") = false
      rw [beq_eq_false_iff_ne]
      intro heq
      exact profile_key_ne p.1 "_sys_data_vlan_id" (by decide) heq.symm
  refine ⟨?_, ?_, ?_, ?_, ?_⟩
  · rw [hpj]
    unfold central_vars
    rw [pyDict_lookup_not_upd _ _ _ hupd_ne_id, hdv]
    rfl
  · intro hprof
    rw [hpj]
    unfold central_vars
    have hupd_ne_name : ∀ kv ∈ ((match site'.voice_vlan with
        | some vb => [("_sys_voice_vlan_id", vb.id), ("_sys_voice_vlan_name", vb.name)]
        | none => [])
        ++ (profile_vlans site' req.template).map
          (fun p => ("_sys_" ++ p.1 ++ "_vlan_name", some p.2))),
        ("_sys_data_vlan_name" == kv.1) = false := by
      intro kv hkv
      rcases List.mem_append.mp hkv with hv | hp
      · cases hvv : site'.voice_vlan with
        | none => rw [hvv] at hv; cases hv
        | some vb =>
          rw [hvv] at hv
          rcases List.mem_cons.mp hv with rfl | hv2
          · exact (by decide :
              ("_sys_data_vlan_name" == "_sys_voice_vlan_id") = false)
          · rcases List.mem_cons.mp hv2 with rfl | hv3
            · exact (by decide :
                ("_sys_data_vlan_name" == "_sys_voice_vlan_name") = false)
            · cases hv3
      · obtain ⟨p, hpmem, rfl⟩ := List.mem_map.mp hp
        show ("_sys_data_vlan_name" == "_sys_" ++ p.1 ++ "_vlan_name") = false
        rw [beq_eq_false_iff_ne]
        intro heq
        have hpd : p.1 = "data" := by
          apply append_middle_inj "_sys_" "_vlan_name" p.1 "data"
          rw [← heq]
          decide
        have := List.all_eq_true.mp hprof p hpmem
        rw [hpd] at this
        simp at this
    rw [pyDict_lookup_not_upd _ _ _ hupd_ne_name, hdv]
    rfl
  · unfold replacements
    rw [hdv]
    rfl
  · unfold get_data_vlan
    rw [hf']
    show ((site'.data_vlan.bind VlanBlock.id).getD "1",
      (site'.data_vlan.bind VlanBlock.name).getD "default") = ("1", "default")
    rw [hdv]
    rfl
  · intro hlt
    rw [hl] at hlt
    have htt : txt = tokAccess := Except.ok.inj hlt
    subst htt
    show renderConfig tokAccess (replacements req site' (hostnameOf req)) = "1"
    unfold renderConfig replacements
    rw [hdv]
    simp only [List.foldl_cons, List.foldl_nil]
    rw [pyReplace_no_occur tokAccess tokHostname _ (by decide)]
    rw [show pyReplace tokAccess tokAccess
      (strVal (some ((Option.bind none VlanBlock.id).getD "1"))) = "1" from by decide]
    rw [pyReplace_no_occur "1" tokVoice _ (by decide)]
    rw [pyReplace_no_occur "1" tokGateway _ (by decide)]
    rw [pyReplace_no_occur "1" tokLocation _ (by decide)]
    exact pyReplace_no_occur "1" tokProfile _ (by decide)

/-- C7 witness: the amended statement at the concrete fixture whose template
is exactly the access-vlan token. -/
theorem C7_witness :
    generate_config c7dir c7store c7req =
      .ok (mkConfigResult c7req c7site tokAccess) ∧
    find_site_by_ip c7dir c7req.mgmt_ip = some ("s7", c7site) ∧
    c7site.data_vlan = none ∧
    ((mkConfigResult c7req c7site tokAccess).payload_json.lookup
        "_sys_data_vlan_id" = some none ∧
      ((profile_vlans c7site c7req.template).all (fun p => !(p.1 == "data")) = true →
        (mkConfigResult c7req c7site tokAccess).payload_json.lookup
          "_sys_data_vlan_name" = some none) ∧
      (replacements c7req c7site (hostnameOf c7req)).lookup tokAccess =
        some (some "1") ∧
      get_data_vlan c7dir c7req.mgmt_ip = ("1", "default") ∧
      (load_template c7store c7req.template = .ok tokAccess →
        (mkConfigResult c7req c7site tokAccess).config = "1")) :=
  ⟨by decide, by decide, rfl,
   C7_amended c7dir c7store c7req (mkConfigResult c7req c7site tokAccess)
     "s7" c7site (by decide) (by decide) rfl⟩

/-! ### Claim C9: the site-not-found message -/

theorem splitOnChar_mem (sep : Char) (l : List Char) :
    ∀ part ∈ splitOnChar sep l, ∀ c ∈ part, c ∈ l := by
  induction l with
  | nil =>
    intro part hp c hc
    simp [splitOnChar] at hp
    subst hp
    cases hc
  | cons a cs ih =>
    intro part hp c hc
    unfold splitOnChar at hp
    cases hsp : splitOnChar sep cs with
    | nil =>
      rw [hsp] at hp
      simp at hp
      subst hp
      cases hc
    | cons r rs =>
      rw [hsp] at hp
      have hp2 : part ∈ (if a = sep then [] :: r :: rs else (a :: r) :: rs) := hp
      by_cases ha : a = sep
      · rw [if_pos ha] at hp2
        rcases List.mem_cons.mp hp2 with rfl | hp3
        · cases hc
        · have hpart : part ∈ splitOnChar sep cs := by rw [hsp]; exact hp3
          exact List.mem_cons_of_mem a (ih part hpart c hc)
      · rw [if_neg ha] at hp2
        rcases List.mem_cons.mp hp2 with rfl | hp3
        · rcases List.mem_cons.mp hc with rfl | hc2
          · exact List.mem_cons_self _ _
          · have hr : r ∈ splitOnChar sep cs := by
              rw [hsp]; exact List.mem_cons_self r rs
            exact List.mem_cons_of_mem a (ih r hr c hc2)
        · have hpart : part ∈ splitOnChar sep cs := by
            rw [hsp]; exact List.mem_cons_of_mem r hp3
          exact List.mem_cons_of_mem a (ih part hpart c hc)

theorem parseOctet_digits (l : List Char) (x : Nat) (h : parseOctet l = some x) :
    l ≠ [] ∧ l.all Char.isDigit = true := by
  unfold parseOctet at h
  split at h
  · rename_i hcond
    exact ⟨hcond.1, hcond.2.1⟩
  · cases h

theorem parseIPv4_has_digit (s : String) (ip : Nat)
    (h : parseIPv4 s = some ip) : ∃ c ∈ s.data, c.isDigit = true := by
  unfold parseIPv4 at h
  cases hsp : splitOnChar '.' s.data with
  | nil => rw [hsp] at h; cases h
  | cons a rest =>
    rw [hsp] at h
    rcases rest with _ | ⟨b, rest2⟩
    · cases h
    rcases rest2 with _ | ⟨cc, rest3⟩
    · cases h
    rcases rest3 with _ | ⟨d, rest4⟩
    · cases h
    rcases rest4 with _ | ⟨e, rest5⟩
    · have h2 : (match parseOctet a, parseOctet b, parseOctet cc, parseOctet d with
        | some x, some y, some z, some w =>
          some (((x * 256 + y) * 256 + z) * 256 + w)
        | _, _, _, _ => none) = some ip := h
      cases hpa : parseOctet a with
      | none => rw [hpa] at h2; cases h2
      | some x =>
        obtain ⟨hne, hdig⟩ := parseOctet_digits a x hpa
        cases ha : a with
        | nil => exact absurd ha hne
        | cons c0 a2 =>
          have hd0 : c0.isDigit = true := by
            rw [ha, List.all_cons, Bool.and_eq_true] at hdig
            exact hdig.1
          have hmem : c0 ∈ s.data := by
            apply splitOnChar_mem '.' s.data a _ c0 _
            · rw [hsp]; exact List.mem_cons_self _ _
            · rw [ha]; exact List.mem_cons_self _ _
          exact ⟨c0, hmem, hd0⟩
    · cases h

theorem substrB_digit (p m : String) (hsub : substrB p m = true)
    (hd : ∃ c ∈ p.data, c.isDigit = true) : ∃ c ∈ m.data, c.isDigit = true := by
  unfold substrB at hsub
  obtain ⟨c, hcp, hcd⟩ := hd
  suffices h : ∀ (l : List Char), containsSubL p.data l = true → c ∈ l by
    exact ⟨c, h m.data hsub, hcd⟩
  intro l
  induction l with
  | nil =>
    intro hh
    unfold containsSubL at hh
    have hpe : p.data = [] := by simpa using hh
    rw [hpe] at hcp
    cases hcp
  | cons a as ih =>
    intro hh
    unfold containsSubL at hh
    rw [Bool.or_eq_true] at hh
    rcases hh with h1 | h2
    · exact isPrefixOf_mem p.data (a :: as) h1 c hcp
    · exact List.mem_cons_of_mem a (ih h2)

theorem siteNotFoundMsg_no_digit :
    siteNotFoundMsg.data.all (fun c => !c.isDigit) = true := by decide

/-- C9 counterexample: the management IP `10.2.3.4` parses but matches no
directory entry; the generation fails with the fixed 400 detail string,
which does not name (or even contain) the offending IP. -/
theorem C9_counterexample :
    generate_config c9dir c9store c9req = .error (400, siteNotFoundMsg) ∧
    substrB c9req.mgmt_ip siteNotFoundMsg = false ∧
    siteNotFoundMsg = "IP does not match any known site in network_config.json" :=
  ⟨by decide, by decide, rfl⟩

/-- C9 (amended).  For every well-formed IPv4 management address matching no
directory entry, generation fails with status 400 and the fixed detail
`"IP does not match any known site in network_config.json"`; that message
never names the offending IP — it contains no digit, while every parsed
IPv4 string contains one, so the address cannot occur in it. -/
theorem C9_amended (dir : SiteDirectory) (store : TemplateStore)
    (req : SwitchRequest) (ip : Nat)
    (hp : parseIPv4 req.mgmt_ip = some ip)
    (hf : find_site_by_ip dir req.mgmt_ip = none) :
    generate_config dir store req = .error (400, siteNotFoundMsg) ∧
    substrB req.mgmt_ip siteNotFoundMsg = false := by
  constructor
  · unfold generate_config
    rw [hp, hf]
  · cases hsub : substrB req.mgmt_ip siteNotFoundMsg with
    | false => rfl
    | true =>
      exfalso
      obtain ⟨c, hcm, hcd⟩ :=
        substrB_digit _ _ hsub (parseIPv4_has_digit _ ip hp)
      have hnd := List.all_eq_true.mp siteNotFoundMsg_no_digit c hcm
      rw [hcd] at hnd
      simp at hnd

/-- C9 witness: the amended behaviour at the concrete fixture. -/
theorem C9_witness :
    parseIPv4 c9req.mgmt_ip = some 167904004 ∧
    find_site_by_ip c9dir c9req.mgmt_ip = none ∧
    (generate_config c9dir c9store c9req = .error (400, siteNotFoundMsg) ∧
     substrB c9req.mgmt_ip siteNotFoundMsg = false) :=
  ⟨by decide, by decide,
   C9_amended c9dir c9store c9req 167904004 (by decide) (by decide)⟩

/-! ### Claim C10: empty-location fallback asymmetry -/

theorem central_updates_key_ne (site : SiteRecord) (template t : String)
    (ht1 : (t == "_sys_voice_vlan_id") = false)
    (ht2 : (t == "_sys_voice_vlan_name") = false)
    (ht3 : endsWithB "_vlan_name" t = false) :
    ∀ kv ∈ ((match site.voice_vlan with
      | some vb => [("_sys_voice_vlan_id", vb.id), ("_sys_voice_vlan_name", vb.name)]
      | none => [])
      ++ (profile_vlans site template).map
        (fun p => ("_sys_" ++ p.1 ++ "_vlan_name", some p.2))),
      (t == kv.1) = false := by
  intro kv hkv
  rcases List.mem_append.mp hkv with hv | hp
  · cases hvv : site.voice_vlan with
    | none => rw [hvv] at hv; cases hv
    | some vb =>
      rw [hvv] at hv
      rcases List.mem_cons.mp hv with rfl | hv2
      · exact ht1
      · rcases List.mem_cons.mp hv2 with rfl | hv3
        · exact ht2
        · cases hv3
  · obtain ⟨p, _, rfl⟩ := List.mem_map.mp hp
    show (t == "_sys_" ++ p.1 ++ "_vlan_name") = false
    rw [beq_eq_false_iff_ne]
    intro heq
    exact profile_key_ne p.1 t ht3 heq.symm

/-- C10.  Empty-location fallback asymmetry: the `\x7b\x7blocation\x7d\x7d`
replacement always carries the request's location verbatim (so an empty
location substitutes the empty string, as the rendering of a
location-token template shows), while the Central variable `_sys_location`
falls back to the literal `"default_location"` exactly when the location is
empty; a non-empty location reaches both outputs verbatim. -/
theorem C10_location_fallback (dir : SiteDirectory) (store : TemplateStore)
    (req : SwitchRequest) (r : ConfigResult) (key : String) (site : SiteRecord)
    (hok : generate_config dir store req = .ok r)
    (hf : find_site_by_ip dir req.mgmt_ip = some (key, site)) :
    (replacements req site (hostnameOf req)).lookup tokLocation =
      some (some req.location) ∧
    (req.location = "" →
      r.payload_json.lookup "_sys_location" = some (some "default_location") ∧
      strVal (some req.location) = "" ∧
      (load_template store req.template = .ok tokLocation → r.config = "")) ∧
    (req.location ≠ "" →
      r.payload_json.lookup "_sys_location" = some (some req.location) ∧
      strVal (some req.location) = req.location) := by
  obtain ⟨key', site', txt, hf', hl, hr⟩ := generate_config_ok_inv dir store req r hok
  rw [hf'] at hf
  have hss : site' = site := congrArg Prod.snd (Option.some.inj hf)
  subst hss
  subst hr
  have hpj : (mkConfigResult req site' txt).payload_json =
      central_vars req (hostnameOf req) site' := rfl
  have hne := central_updates_key_ne site' req.template "_sys_location"
    (by decide) (by decide) (by decide)
  refine ⟨rfl, ?_, ?_⟩
  · intro hloc
    refine ⟨?_, by rw [hloc]; rfl, ?_⟩
    · rw [hpj]
      unfold central_vars
      rw [pyDict_lookup_not_upd _ _ _ hne, hloc]
      rfl
    · intro hlt
      rw [hl] at hlt
      have htt : txt = tokLocation := Except.ok.inj hlt
      subst htt
      show renderConfig tokLocation (replacements req site' (hostnameOf req)) = ""
      unfold renderConfig replacements
      simp only [List.foldl_cons, List.foldl_nil]
      rw [pyReplace_no_occur tokLocation tokHostname _ (by decide)]
      rw [pyReplace_no_occur tokLocation tokAccess _ (by decide)]
      rw [pyReplace_no_occur tokLocation tokVoice _ (by decide)]
      rw [pyReplace_no_occur tokLocation tokGateway _ (by decide)]
      rw [hloc]
      rw [show pyReplace tokLocation tokLocation (strVal (some "")) = "" from
        by decide]
      exact pyReplace_no_occur "" tokProfile _ (by decide)
  · intro hloc
    refine ⟨?_, rfl⟩
    rw [hpj]
    unfold central_vars
    rw [pyDict_lookup_not_upd _ _ _ hne]
    rw [if_neg hloc]
    rfl

/-- C10 witness: a request with an empty location against a template that is
exactly the location token. -/
theorem C10_witness :
    generate_config c10dir c10store c10req =
      .ok (mkConfigResult c10req c10site tokLocation) ∧
    find_site_by_ip c10dir c10req.mgmt_ip = some ("s10", c10site) ∧
    ((replacements c10req c10site (hostnameOf c10req)).lookup tokLocation =
        some (some c10req.location) ∧
      (c10req.location = "" →
        (mkConfigResult c10req c10site tokLocation).payload_json.lookup
            "_sys_location" = some (some "default_location") ∧
        strVal (some c10req.location) = "" ∧
        (load_template c10store c10req.template = .ok tokLocation →
          (mkConfigResult c10req c10site tokLocation).config = "")) ∧
      (c10req.location ≠ "" →
        (mkConfigResult c10req c10site tokLocation).payload_json.lookup
            "_sys_location" = some (some c10req.location) ∧
        strVal (some c10req.location) = c10req.location)) :=
  ⟨by decide, by decide,
   C10_location_fallback c10dir c10store c10req
     (mkConfigResult c10req c10site tokLocation) "s10" c10site
     (by decide) (by decide)⟩
